import Mathlib

/-!
Verification of the oddsAnalyzer repository: a shallow embedding of its
record filtering, statistics aggregation, authentication gate, and the two
frontend hit-the-line classifiers, together with theorems settling the
frozen claims about the natural-language specification.
-/

/-! ## String containment (JavaScript `String.prototype.includes`) -/

/-- Whether `needle` matches the beginning of `hay`, character by character. -/
def matchesAt : List Char → List Char → Bool
  | [], _ => true
  | _ :: _, [] => false
  | a :: as, b :: bs => a == b && matchesAt as bs

/-- Whether `needle` occurs as a contiguous substring of the haystack. -/
def containsSub (needle : List Char) : List Char → Bool
  | [] => needle.isEmpty
  | c :: t => matchesAt needle (c :: t) || containsSub needle t

/-- Case-sensitive substring test, the semantics of `s.includes(pattern)`
used throughout the frontend code. -/
def strContains (s pattern : String) : Bool :=
  containsSub pattern.toList s.toList

/-! ## Frontend hit-the-line classifiers

`checkGameHitLine` is from
src/frontend/src/components/Home/PredictionsTable.tsx (PredictionsTableRow);
`barColor` is the bar-coloring logic of
src/frontend/src/components/Player/PlayerStatsChart.tsx.
Shot counts are integers; betting lines and model predictions are reals,
embedded as rationals. -/

/-- From PredictionsTableRow: a past game counts as a hit when shots beat
the line strictly in the direction of the recommendation; any
recommendation not containing "OVER" falls into the UNDER branch. -/
def checkGameHitLine (shots : ℤ) (line : ℚ) (recommendation : String) : Bool :=
  if strContains recommendation "OVER" then
    decide ((shots : ℚ) > line)
  else
    decide ((shots : ℚ) < line)

/-- Green bar color of PlayerStatsChart (a win for the recommended side). -/
def winColor : String := "#4ade80"

/-- Red bar color of PlayerStatsChart (a loss for the recommended side). -/
def lossColor : String := "#ef4444"

/-- Default bar color of PlayerStatsChart, used when line or prediction is
absent. -/
def defaultBarColor : String := "#646cff"

/-- From PlayerStatsChart: bar color for one game. When the model
recommends UNDER (prediction < line) the bar is green when shots < line;
otherwise (prediction >= line, the OVER side) the bar is green when
shots >= line. -/
def barColor (shots : ℤ) (line prediction : Option ℚ) : String :=
  match line, prediction with
  | some l, some p =>
    if p < l then
      (if (shots : ℚ) < l then winColor else lossColor)
    else
      (if (shots : ℚ) ≥ l then winColor else lossColor)
  | _, _ => defaultBarColor

/-! ## Data model

The backend (FastAPI `api/` package) is not part of the shipped sources;
its data model and engine are modelled from the specification text. -/

/-- Modelled from the spec: the closed confidence-tier enumeration
(spec section 3, invariant: confidence is always one of the three tiers). -/
inductive Confidence
  | HIGH
  | MEDIUM
  | LOW
deriving DecidableEq

/-- Modelled from the spec: the closed graded-outcome enumeration. -/
inductive BetResult
  | WIN
  | LOSS
  | PUSH
deriving DecidableEq

/-- Modelled from the spec: one stored prediction/result row (spec
section 3, PredictionRecord), restricted to the fields that the filter
and aggregation engine inspect. Game time is an epoch-style integer
timestamp; nullable fields are options. -/
structure PredictionRecord where
  game_time : ℤ
  player_id : ℤ
  line : ℚ
  recommendation : String
  confidence : Confidence
  actual_shots : Option ℤ
  result : Option BetResult
  units_won : Option ℚ
deriving DecidableEq

/-- Modelled from the spec: the derived AggregateStats view (spec
section 3). Percentages and units are rationals. -/
structure AggregateStats where
  total_bets : ℕ
  wins : ℕ
  losses : ℕ
  pushes : ℕ
  win_rate : ℚ
  total_units : ℚ
  roi : ℚ
deriving DecidableEq

/-! ## Aggregation engine (modelled from spec section 4.2) -/

/-- Round a rational to one decimal place (spec steps 3 and 4: win rate
and ROI are rounded to one decimal place). -/
def round1 (x : ℚ) : ℚ :=
  (round (10 * x) : ℤ) / 10

/-- Modelled from the spec: step 1 of the aggregation algorithm — discard
every record whose result is null (ungraded). -/
def gradedOf (records : List PredictionRecord) : List PredictionRecord :=
  records.filter (fun r => r.result.isSome)

/-- Modelled from the spec: steps 2-5 of the aggregation algorithm applied
to an already-graded record list — count wins, losses and pushes, sum
units won, and derive win rate and ROI with the divide-by-zero policy
(win rate 0 when wins + losses = 0, ROI 0 when total bets = 0). -/
def statsFromGraded (g : List PredictionRecord) : AggregateStats :=
  let wins := g.countP (fun r => decide (r.result = some BetResult.WIN))
  let losses := g.countP (fun r => decide (r.result = some BetResult.LOSS))
  let pushes := g.countP (fun r => decide (r.result = some BetResult.PUSH))
  let total_units := (g.map (fun r => r.units_won.getD 0)).sum
  { total_bets := wins + losses + pushes
    wins := wins
    losses := losses
    pushes := pushes
    win_rate :=
      if wins + losses = 0 then 0
      else round1 ((wins : ℚ) / ((wins : ℚ) + (losses : ℚ)) * 100)
    total_units := total_units
    roi :=
      if wins + losses + pushes = 0 then 0
      else round1 (total_units / (((wins : ℚ) + (losses : ℚ) + (pushes : ℚ))) * 100) }

/-- Modelled from the spec: the full aggregation pass — drop ungraded
records, then reduce (spec section 4.2, steps 1-5). -/
def computeStats (records : List PredictionRecord) : AggregateStats :=
  statsFromGraded (gradedOf records)

/-- Modelled from the spec: the by-confidence breakdown (spec step 6) —
one AggregateStats per tier, in the fixed order HIGH, MEDIUM, LOW, with
tiers holding no graded records still emitted. -/
def byConfidence (records : List PredictionRecord) :
    List (Confidence × AggregateStats) :=
  [Confidence.HIGH, Confidence.MEDIUM, Confidence.LOW].map
    (fun c => (c, computeStats (records.filter (fun r => decide (r.confidence = c)))))

/-- Modelled from the spec: the results-summary response shape — total,
over-only and under-only AggregateStats. -/
structure ResultsSummary where
  over_bets : AggregateStats
  under_bets : AggregateStats
  total : AggregateStats
deriving DecidableEq

/-- Modelled from the spec: the by-direction breakdown (spec step 7) —
partition by whether the recommendation contains the substring "OVER" or
"UNDER" (case-sensitive), then reduce each side and the whole set. -/
def resultsSummary (records : List PredictionRecord) : ResultsSummary :=
  { over_bets := computeStats (records.filter (fun r => strContains r.recommendation "OVER"))
    under_bets := computeStats (records.filter (fun r => strContains r.recommendation "UNDER"))
    total := computeStats records }

/-! ## Record filter (modelled from spec section 4.1) -/

/-- Modelled from the spec: the validation errors of the record filter —
out-of-domain confidence literal, out-of-domain result literal, or an
inverted date range. -/
inductive FilterError
  | invalidConfidence (s : String)
  | invalidResult (s : String)
  | invalidDateRange
deriving DecidableEq

/-- Modelled from the spec: parse a confidence filter literal; anything
outside HIGH, MEDIUM, LOW is invalid. -/
def parseConfidence : String → Option Confidence
  | "HIGH" => some Confidence.HIGH
  | "MEDIUM" => some Confidence.MEDIUM
  | "LOW" => some Confidence.LOW
  | _ => none

/-- Modelled from the spec: parse a result filter literal; anything
outside WIN, LOSS, PUSH is invalid. -/
def parseResult : String → Option BetResult
  | "WIN" => some BetResult.WIN
  | "LOSS" => some BetResult.LOSS
  | "PUSH" => some BetResult.PUSH
  | _ => none

/-- Modelled from the spec: a filter request — optional confidence and
result literals, optional inclusive date bounds on game time, optional
player id, and the requested ordering direction. -/
structure FilterQuery where
  confidence : Option String
  result : Option String
  dateFrom : Option ℤ
  dateTo : Option ℤ
  player : Option ℤ
  descending : Bool
deriving DecidableEq

/-- Modelled from the spec: validate the optional confidence literal,
signalling a caller error on an out-of-domain value. -/
def parseConfFilter : Option String → Except FilterError (Option Confidence)
  | none => Except.ok none
  | some s =>
    match parseConfidence s with
    | some c => Except.ok (some c)
    | none => Except.error (FilterError.invalidConfidence s)

/-- Modelled from the spec: validate the optional result literal,
signalling a caller error on an out-of-domain value. -/
def parseResultFilter : Option String → Except FilterError (Option BetResult)
  | none => Except.ok none
  | some s =>
    match parseResult s with
    | some v => Except.ok (some v)
    | none => Except.error (FilterError.invalidResult s)

/-- Modelled from the spec: a date range whose lower bound lies strictly
after its upper bound is rejected as invalid. -/
def checkDateRange (dateFrom dateTo : Option ℤ) : Except FilterError Unit :=
  match dateFrom, dateTo with
  | some a, some b => if b < a then Except.error FilterError.invalidDateRange else Except.ok ()
  | _, _ => Except.ok ()

/-- Modelled from the spec: the date predicate — inclusive on both ends,
evaluated against game time. -/
def matchesDate (dateFrom dateTo : Option ℤ) (r : PredictionRecord) : Bool :=
  (match dateFrom with
   | none => true
   | some a => decide (a ≤ r.game_time)) &&
  (match dateTo with
   | none => true
   | some b => decide (r.game_time ≤ b))

/-- Modelled from the spec: the confidence predicate of a validated query. -/
def matchesConfidence (c : Option Confidence) (r : PredictionRecord) : Bool :=
  match c with
  | none => true
  | some c => decide (r.confidence = c)

/-- Modelled from the spec: the result predicate of a validated query. -/
def matchesResult (v : Option BetResult) (r : PredictionRecord) : Bool :=
  match v with
  | none => true
  | some v => decide (r.result = some v)

/-- Modelled from the spec: the player predicate of a validated query. -/
def matchesPlayer (p : Option ℤ) (r : PredictionRecord) : Bool :=
  match p with
  | none => true
  | some p => decide (r.player_id = p)

/-- Modelled from the spec: conjunction of all supplied predicates
(absent filters impose no constraint). -/
def matchesQuery (q : FilterQuery) (c : Option Confidence) (v : Option BetResult)
    (r : PredictionRecord) : Bool :=
  matchesDate q.dateFrom q.dateTo r && matchesConfidence c r &&
    matchesResult v r && matchesPlayer q.player r

/-- Modelled from the spec: order the matching records by game time,
ascending unless the caller requests descending. -/
def sortByGameTime (descending : Bool) (l : List PredictionRecord) :
    List PredictionRecord :=
  if descending then
    l.insertionSort (fun r₁ r₂ => r₂.game_time ≤ r₁.game_time)
  else
    l.insertionSort (fun r₁ r₂ => r₁.game_time ≤ r₂.game_time)

/-- Modelled from the spec: the record filter — validate every supplied
filter literal and the date range before any filtering runs, then return
the ordered subset satisfying all supplied predicates. -/
def filterRecords (q : FilterQuery) (records : List PredictionRecord) :
    Except FilterError (List PredictionRecord) :=
  match parseConfFilter q.confidence with
  | Except.error e => Except.error e
  | Except.ok c =>
    match parseResultFilter q.result with
    | Except.error e => Except.error e
    | Except.ok v =>
      match checkDateRange q.dateFrom q.dateTo with
      | Except.error e => Except.error e
      | Except.ok _ =>
        Except.ok (sortByGameTime q.descending (records.filter (matchesQuery q c v)))

/-! ## Authentication gate and endpoint dispatch (modelled from spec
sections 4.3 and 6) -/

/-- Modelled from the spec: the logical operations of the HTTP layer —
the two unauthenticated probes (root info and liveness) and the six
authenticated data operations. -/
inductive Endpoint
  | root
  | health
  | predictionsToday
  | predictionsUpcoming
  | results
  | stats
  | statsConfidence (level : String)
  | resultsSummaryOp
deriving DecidableEq

/-- Modelled from the spec: every operation except the liveness probe and
the root info probe requires a credential. -/
def requiresAuth : Endpoint → Bool
  | Endpoint.root => false
  | Endpoint.health => false
  | _ => true

/-- Modelled from the spec: the response shapes of the logical
operations. -/
inductive ApiResponse
  | info
  | healthy (predictions_count : ℕ)
  | records (l : List PredictionRecord)
  | statsReport (overall : AggregateStats) (tiers : List (Confidence × AggregateStats))
  | tierStats (s : AggregateStats)
  | summary (s : ResultsSummary)
deriving DecidableEq

/-- Modelled from the spec: request-level failures — authentication
failure or a validation failure from the record filter. -/
inductive ApiError
  | unauthorized
  | badRequest (e : FilterError)
deriving DecidableEq

/-- Modelled from the spec: dispatch one authenticated logical operation
over the record snapshot. -/
def processEndpoint (ep : Endpoint) (q : FilterQuery)
    (records : List PredictionRecord) : Except ApiError ApiResponse :=
  match ep with
  | Endpoint.root => Except.ok ApiResponse.info
  | Endpoint.health => Except.ok (ApiResponse.healthy records.length)
  | Endpoint.predictionsToday | Endpoint.predictionsUpcoming | Endpoint.results =>
    match filterRecords q records with
    | Except.error e => Except.error (ApiError.badRequest e)
    | Except.ok l => Except.ok (ApiResponse.records l)
  | Endpoint.stats =>
    match filterRecords q records with
    | Except.error e => Except.error (ApiError.badRequest e)
    | Except.ok l => Except.ok (ApiResponse.statsReport (computeStats l) (byConfidence l))
  | Endpoint.statsConfidence s =>
    match parseConfidence s with
    | none => Except.error (ApiError.badRequest (FilterError.invalidConfidence s))
    | some c =>
      Except.ok (ApiResponse.tierStats
        (computeStats (records.filter (fun r => decide (r.confidence = c)))))
  | Endpoint.resultsSummaryOp =>
    match filterRecords q records with
    | Except.error e => Except.error (ApiError.badRequest e)
    | Except.ok l => Except.ok (ApiResponse.summary (resultsSummary l))

/-- Modelled from the spec: the authentication gate — for every operation
that requires a credential, a missing credential or one outside the
configured accepted set is rejected before any filtering or aggregation
runs. -/
def handleRequest (acceptedKeys : List String) (apiKey : Option String)
    (ep : Endpoint) (q : FilterQuery) (records : List PredictionRecord) :
    Except ApiError ApiResponse :=
  if requiresAuth ep then
    match apiKey with
    | none => Except.error ApiError.unauthorized
    | some k =>
      if k ∈ acceptedKeys then processEndpoint ep q records
      else Except.error ApiError.unauthorized
  else processEndpoint ep q records

/-! ## Concrete sample records used by witnesses and scenarios -/

/-- A graded HIGH-confidence winning OVER record. -/
def sampleWin : PredictionRecord :=
  { game_time := 1, player_id := 11, line := 7/2, recommendation := "BET OVER 3.5",
    confidence := Confidence.HIGH, actual_shots := some 5,
    result := some BetResult.WIN, units_won := some 1 }

/-- A graded MEDIUM-confidence losing UNDER record. -/
def sampleLoss : PredictionRecord :=
  { game_time := 2, player_id := 12, line := 5/2, recommendation := "BET UNDER 2.5",
    confidence := Confidence.MEDIUM, actual_shots := some 4,
    result := some BetResult.LOSS, units_won := some (-11/10) }

/-- An ungraded record (null result), with other fields populated. -/
def sampleUngraded : PredictionRecord :=
  { game_time := 3, player_id := 13, line := 3, recommendation := "BET OVER 3.0",
    confidence := Confidence.LOW, actual_shots := none,
    result := none, units_won := none }

/-- A graded record whose recommendation contains neither OVER nor UNDER. -/
def sampleNoDirection : PredictionRecord :=
  { game_time := 4, player_id := 14, line := 2, recommendation := "NO BET",
    confidence := Confidence.HIGH, actual_shots := some 2,
    result := some BetResult.PUSH, units_won := some 0 }

/-- The spec scenario for the by-direction breakdown: four graded records
whose recommendations contain OVER (three WIN, one LOSS) and two graded
records whose recommendations contain neither OVER nor UNDER. -/
def scenarioRecords : List PredictionRecord :=
  [ { game_time := 1, player_id := 1, line := 5/2, recommendation := "BET OVER 2.5",
      confidence := Confidence.HIGH, actual_shots := some 3,
      result := some BetResult.WIN, units_won := some 1 },
    { game_time := 2, player_id := 2, line := 7/2, recommendation := "BET OVER 3.5",
      confidence := Confidence.HIGH, actual_shots := some 4,
      result := some BetResult.WIN, units_won := some (9/10) },
    { game_time := 3, player_id := 3, line := 3/2, recommendation := "BET OVER 1.5",
      confidence := Confidence.MEDIUM, actual_shots := some 2,
      result := some BetResult.WIN, units_won := some 1 },
    { game_time := 4, player_id := 4, line := 5/2, recommendation := "BET OVER 2.5",
      confidence := Confidence.MEDIUM, actual_shots := some 1,
      result := some BetResult.LOSS, units_won := some (-1) },
    { game_time := 5, player_id := 5, line := 2, recommendation := "NO BET",
      confidence := Confidence.HIGH, actual_shots := some 2,
      result := some BetResult.PUSH, units_won := some 0 },
    { game_time := 6, player_id := 6, line := 3, recommendation := "AVOID",
      confidence := Confidence.LOW, actual_shots := some 5,
      result := some BetResult.WIN, units_won := some 1 } ]

/-- A query with no filters supplied. -/
def emptyQuery : FilterQuery :=
  { confidence := none, result := none, dateFrom := none, dateTo := none,
    player := none, descending := false }

/-- A query carrying an out-of-domain confidence literal. -/
def badConfidenceQuery : FilterQuery :=
  { confidence := some "EXTREME", result := none, dateFrom := none, dateTo := none,
    player := none, descending := false }

/-- A query with a well-ordered date range and no other filters. -/
def dateQuery : FilterQuery :=
  { confidence := none, result := none, dateFrom := some 0, dateTo := some 10,
    player := none, descending := false }

/-- A query whose date lower bound lies strictly after its upper bound. -/
def invertedDateQuery : FilterQuery :=
  { confidence := none, result := none, dateFrom := some 5, dateTo := some 1,
    player := none, descending := false }

/-! ## Helper lemmas -/

/-- round1 stays within [0, 100] on inputs within [0, 100]. -/
lemma round1_mem_Icc {x : ℚ} (h0 : 0 ≤ x) (h1 : x ≤ 100) :
    0 ≤ round1 x ∧ round1 x ≤ 100 := by
  have hlo : (0 : ℤ) ≤ round (10 * x) := by
    rw [round_eq]
    exact Int.le_floor.mpr (by push_cast; linarith)
  have hhi : round (10 * x) ≤ 1000 := by
    rw [round_eq]
    have hf : ((⌊10 * x + 1 / 2⌋ : ℤ) : ℚ) ≤ 10 * x + 1 / 2 := Int.floor_le _
    have hq : ((⌊10 * x + 1 / 2⌋ : ℤ) : ℚ) < 1001 := by linarith
    have hz : ⌊10 * x + 1 / 2⌋ < (1001 : ℤ) := by exact_mod_cast hq
    omega
  constructor
  · exact div_nonneg (by exact_mod_cast hlo) (by norm_num)
  · rw [round1, div_le_iff₀ (by norm_num : (0 : ℚ) < 10)]
    calc ((round (10 * x) : ℤ) : ℚ) ≤ 1000 := by exact_mod_cast hhi
    _ = 100 * 10 := by norm_num

/-- A win ratio times 100 lies within [0, 100]. -/
lemma ratio_mem_Icc (w l : ℕ) (h : w + l ≠ 0) :
    0 ≤ (w : ℚ) / ((w : ℚ) + (l : ℚ)) * 100
      ∧ (w : ℚ) / ((w : ℚ) + (l : ℚ)) * 100 ≤ 100 := by
  have hpos : (0 : ℚ) < (w : ℚ) + (l : ℚ) := by
    have : 0 < w + l := Nat.pos_of_ne_zero h
    exact_mod_cast this
  constructor
  · positivity
  · have hle : (w : ℚ) / ((w : ℚ) + (l : ℚ)) ≤ 1 := by
      rw [div_le_one hpos]
      have : (w : ℚ) ≤ (w : ℚ) + (l : ℚ) := by
        have : (0 : ℚ) ≤ (l : ℚ) := by positivity
        linarith
      exact this
    nlinarith

/-- Inserting a record the predicate rejects leaves a filter unchanged. -/
lemma filter_middle_false {p : PredictionRecord → Bool} {r : PredictionRecord}
    (hp : p r = false) (l₁ l₂ : List PredictionRecord) :
    (l₁ ++ r :: l₂).filter p = (l₁ ++ l₂).filter p := by
  simp [List.filter_append, List.filter_cons, hp]

/-- Inserting an ungraded record does not change the overall stats. -/
lemma computeStats_insert_ungraded {r : PredictionRecord} (h : r.result = none)
    (l₁ l₂ : List PredictionRecord) :
    computeStats (l₁ ++ r :: l₂) = computeStats (l₁ ++ l₂) := by
  unfold computeStats gradedOf
  rw [filter_middle_false (by simp [h]) l₁ l₂]

/-- Inserting an ungraded record does not change the stats of any
filtered partition. -/
lemma computeStats_filter_insert_ungraded {r : PredictionRecord}
    (h : r.result = none) (p : PredictionRecord → Bool)
    (l₁ l₂ : List PredictionRecord) :
    computeStats ((l₁ ++ r :: l₂).filter p) = computeStats ((l₁ ++ l₂).filter p) := by
  unfold computeStats gradedOf
  rw [List.filter_filter, List.filter_filter,
    filter_middle_false (p := fun a => a.result.isSome && p a) (by simp [h]) l₁ l₂]

/-- The wins field of the aggregate as one countP over the raw list. -/
lemma computeStats_wins (m : List PredictionRecord) :
    (computeStats m).wins =
      m.countP (fun r => decide (r.result = some BetResult.WIN) && r.result.isSome) := by
  simp [computeStats, statsFromGraded, gradedOf, List.countP_filter]

/-- The losses field of the aggregate as one countP over the raw list. -/
lemma computeStats_losses (m : List PredictionRecord) :
    (computeStats m).losses =
      m.countP (fun r => decide (r.result = some BetResult.LOSS) && r.result.isSome) := by
  simp [computeStats, statsFromGraded, gradedOf, List.countP_filter]

/-- The pushes field of the aggregate as one countP over the raw list. -/
lemma computeStats_pushes (m : List PredictionRecord) :
    (computeStats m).pushes =
      m.countP (fun r => decide (r.result = some BetResult.PUSH) && r.result.isSome) := by
  simp [computeStats, statsFromGraded, gradedOf, List.countP_filter]

/-- total_bets is the sum of the three outcome counters. -/
lemma computeStats_total_bets (m : List PredictionRecord) :
    (computeStats m).total_bets =
      (computeStats m).wins + (computeStats m).losses + (computeStats m).pushes := by
  simp [computeStats, statsFromGraded]

/-- The three confidence tiers partition any record list: tierwise counts
sum to the overall count. -/
lemma countP_confidence_partition (p : PredictionRecord → Bool)
    (l : List PredictionRecord) :
    (l.filter (fun r => decide (r.confidence = Confidence.HIGH))).countP p
      + (l.filter (fun r => decide (r.confidence = Confidence.MEDIUM))).countP p
      + (l.filter (fun r => decide (r.confidence = Confidence.LOW))).countP p
      = l.countP p := by
  induction l with
  | nil => rfl
  | cons r t ih =>
    cases hc : r.confidence <;>
      simp [List.filter_cons, List.countP_cons, hc] <;>
      omega

/-- Tierwise wins sum to overall wins. -/
lemma byConfidence_wins_sum (records : List PredictionRecord) :
    ((byConfidence records).map (fun t => t.2.wins)).sum = (computeStats records).wins := by
  simp only [byConfidence, List.map_cons, List.map_nil, List.sum_cons, List.sum_nil,
    computeStats_wins]
  have h := countP_confidence_partition
    (fun r => decide (r.result = some BetResult.WIN) && r.result.isSome) records
  omega

/-- Tierwise losses sum to overall losses. -/
lemma byConfidence_losses_sum (records : List PredictionRecord) :
    ((byConfidence records).map (fun t => t.2.losses)).sum = (computeStats records).losses := by
  simp only [byConfidence, List.map_cons, List.map_nil, List.sum_cons, List.sum_nil,
    computeStats_losses]
  have h := countP_confidence_partition
    (fun r => decide (r.result = some BetResult.LOSS) && r.result.isSome) records
  omega

/-- Tierwise pushes sum to overall pushes. -/
lemma byConfidence_pushes_sum (records : List PredictionRecord) :
    ((byConfidence records).map (fun t => t.2.pushes)).sum = (computeStats records).pushes := by
  simp only [byConfidence, List.map_cons, List.map_nil, List.sum_cons, List.sum_nil,
    computeStats_pushes]
  have h := countP_confidence_partition
    (fun r => decide (r.result = some BetResult.PUSH) && r.result.isSome) records
  omega

/-- Tierwise total_bets sum to overall total_bets. -/
lemma byConfidence_total_bets_sum (records : List PredictionRecord) :
    ((byConfidence records).map (fun t => t.2.total_bets)).sum
      = (computeStats records).total_bets := by
  simp only [byConfidence, List.map_cons, List.map_nil, List.sum_cons, List.sum_nil,
    computeStats_total_bets, computeStats_wins, computeStats_losses, computeStats_pushes]
  have hw := countP_confidence_partition
    (fun r => decide (r.result = some BetResult.WIN) && r.result.isSome) records
  have hl := countP_confidence_partition
    (fun r => decide (r.result = some BetResult.LOSS) && r.result.isSome) records
  have hp := countP_confidence_partition
    (fun r => decide (r.result = some BetResult.PUSH) && r.result.isSome) records
  omega

/-! ## Claim theorems -/

/-- C1: for every record set, the aggregated win_rate is
wins / (wins + losses) × 100 rounded to one decimal place, is 0 rather
than undefined when wins + losses = 0, and always lies in [0, 100]. -/
theorem winRate_formula_and_bounds (records : List PredictionRecord) :
    ((computeStats records).wins + (computeStats records).losses = 0 →
      (computeStats records).win_rate = 0)
    ∧ ((computeStats records).wins + (computeStats records).losses ≠ 0 →
      (computeStats records).win_rate =
        round1 (((computeStats records).wins : ℚ) /
          (((computeStats records).wins : ℚ) + ((computeStats records).losses : ℚ)) * 100))
    ∧ 0 ≤ (computeStats records).win_rate
    ∧ (computeStats records).win_rate ≤ 100 := by
  simp only [computeStats, statsFromGraded]
  set g := gradedOf records
  set w := g.countP (fun r => decide (r.result = some BetResult.WIN)) with hw
  set l := g.countP (fun r => decide (r.result = some BetResult.LOSS)) with hl
  refine ⟨fun hc => by rw [if_pos hc], fun hc => by rw [if_neg hc], ?_, ?_⟩
  · by_cases h : w + l = 0
    · rw [if_pos h]
    · rw [if_neg h]
      exact (round1_mem_Icc (ratio_mem_Icc w l h).1 (ratio_mem_Icc w l h).2).1
  · by_cases h : w + l = 0
    · rw [if_pos h]
      norm_num
    · rw [if_neg h]
      exact (round1_mem_Icc (ratio_mem_Icc w l h).1 (ratio_mem_Icc w l h).2).2

/-- C1 witness: a concrete single-win record set has win_rate given by the
rounded formula, and the bounds hold there. -/
theorem winRate_formula_and_bounds_witness :
    (computeStats [sampleWin]).win_rate =
      round1 (((computeStats [sampleWin]).wins : ℚ) /
        (((computeStats [sampleWin]).wins : ℚ) + ((computeStats [sampleWin]).losses : ℚ)) * 100)
    ∧ 0 ≤ (computeStats [sampleWin]).win_rate
    ∧ (computeStats [sampleWin]).win_rate ≤ 100 :=
  ⟨(winRate_formula_and_bounds [sampleWin]).2.1 (by decide),
   (winRate_formula_and_bounds [sampleWin]).2.2.1,
   (winRate_formula_and_bounds [sampleWin]).2.2.2⟩

/-- C2: for every record set, the aggregated roi is
total_units / total_bets × 100 rounded to one decimal place and is 0 when
total_bets = 0; aggregating an empty record set yields the all-zero
AggregateStats with no division-by-zero failure. -/
theorem roi_formula_and_empty_stats (records : List PredictionRecord) :
    ((computeStats records).total_bets = 0 → (computeStats records).roi = 0)
    ∧ ((computeStats records).total_bets ≠ 0 →
      (computeStats records).roi =
        round1 ((computeStats records).total_units /
          ((computeStats records).total_bets : ℚ) * 100))
    ∧ computeStats [] =
        { total_bets := 0, wins := 0, losses := 0, pushes := 0,
          win_rate := 0, total_units := 0, roi := 0 } := by
  refine ⟨?_, ?_, by decide⟩
  · simp only [computeStats, statsFromGraded]
    intro h
    simp [h]
  · simp only [computeStats, statsFromGraded]
    intro h
    simp only [h, if_false, ne_eq, not_false_eq_true]
    push_cast
    rfl

/-- C2 witness: aggregating the empty record set returns roi 0 via the
zero-denominator policy. -/
theorem roi_formula_and_empty_stats_witness :
    (computeStats []).roi = 0 :=
  (roi_formula_and_empty_stats []).1 (by decide)

/-- C3: a record whose result is null contributes to no field of any
AggregateStats produced by the engine — overall, by-confidence, or
by-direction — regardless of its other field values. -/
theorem ungraded_record_contributes_nothing (r : PredictionRecord)
    (h : r.result = none) (l₁ l₂ : List PredictionRecord) :
    computeStats (l₁ ++ r :: l₂) = computeStats (l₁ ++ l₂)
    ∧ byConfidence (l₁ ++ r :: l₂) = byConfidence (l₁ ++ l₂)
    ∧ resultsSummary (l₁ ++ r :: l₂) = resultsSummary (l₁ ++ l₂) := by
  refine ⟨computeStats_insert_ungraded h l₁ l₂, ?_, ?_⟩
  · unfold byConfidence
    simp only [computeStats_filter_insert_ungraded h]
  · unfold resultsSummary
    simp only [computeStats_filter_insert_ungraded h, computeStats_insert_ungraded h]

/-- C3 witness: inserting a concrete ungraded record between two graded
ones leaves the overall stats unchanged. -/
theorem ungraded_record_contributes_nothing_witness :
    computeStats [sampleWin, sampleUngraded, sampleLoss] =
      computeStats [sampleWin, sampleLoss] :=
  (ungraded_record_contributes_nothing sampleUngraded rfl [sampleWin] [sampleLoss]).1

/-- C4: the by-confidence breakdown always emits the three tiers in the
fixed order HIGH, MEDIUM, LOW; tierwise wins, losses and pushes sum to
the overall values; and a tier with no graded records carries the
all-zero stats of the empty aggregation rather than being omitted. -/
theorem confidence_partition_homomorphism (records : List PredictionRecord) :
    (byConfidence records).map Prod.fst
        = [Confidence.HIGH, Confidence.MEDIUM, Confidence.LOW]
    ∧ ((byConfidence records).map (fun t => t.2.wins)).sum = (computeStats records).wins
    ∧ ((byConfidence records).map (fun t => t.2.losses)).sum = (computeStats records).losses
    ∧ ((byConfidence records).map (fun t => t.2.pushes)).sum = (computeStats records).pushes
    ∧ ∀ t ∈ byConfidence records,
        gradedOf (records.filter (fun r => decide (r.confidence = t.1))) = [] →
        t.2 = computeStats [] := by
  refine ⟨rfl, byConfidence_wins_sum records, byConfidence_losses_sum records,
    byConfidence_pushes_sum records, ?_⟩
  intro t ht hempty
  simp only [byConfidence, List.map_cons, List.map_nil, List.mem_cons,
    List.not_mem_nil, or_false] at ht
  rcases ht with rfl | rfl | rfl <;>
  · have hempty' := hempty
    show computeStats _ = computeStats []
    rw [computeStats, hempty']
    rfl

/-- Inserting a record the predicate keeps splits a filter around it. -/
lemma countP_middle (p : PredictionRecord → Bool) (r : PredictionRecord)
    (l₁ l₂ : List PredictionRecord) :
    (l₁ ++ r :: l₂).countP p
      = (l₁ ++ l₂).countP p + (if p r = true then 1 else 0) := by
  cases hp : p r <;> simp [List.countP_append, List.countP_cons, hp]
  all_goals omega

/-- Inserting a graded record increments total_bets by exactly one. -/
lemma total_bets_insert_graded {r : PredictionRecord} {v : BetResult}
    (h : r.result = some v) (l₁ l₂ : List PredictionRecord) :
    (computeStats (l₁ ++ r :: l₂)).total_bets
      = (computeStats (l₁ ++ l₂)).total_bets + 1 := by
  rw [computeStats_total_bets, computeStats_total_bets,
    computeStats_wins, computeStats_wins,
    computeStats_losses, computeStats_losses,
    computeStats_pushes, computeStats_pushes,
    countP_middle, countP_middle, countP_middle]
  cases v <;> simp [h] <;> omega

/-- C4 witness: on a one-record HIGH list, the MEDIUM tier has no graded
records and carries the empty aggregation. -/
theorem confidence_partition_homomorphism_witness :
    computeStats ([sampleWin].filter (fun r => decide (r.confidence = Confidence.MEDIUM)))
      = computeStats [] :=
  (confidence_partition_homomorphism [sampleWin]).2.2.2.2
    (Confidence.MEDIUM,
      computeStats ([sampleWin].filter (fun r => decide (r.confidence = Confidence.MEDIUM))))
    (by decide) (by decide)

/-- C6: a graded record whose recommendation contains neither OVER nor
UNDER is excluded from both direction partitions of the by-direction
breakdown yet still counted in the overall stats and in the
by-confidence breakdown; in the spec scenario of four OVER records
(three WIN, one LOSS) plus two direction-less records, the over
partition totals 4 bets while the overall total is 6. -/
theorem no_direction_excluded_but_counted (r : PredictionRecord)
    (hov : strContains r.recommendation "OVER" = false)
    (hun : strContains r.recommendation "UNDER" = false) :
    (∀ l₁ l₂ : List PredictionRecord,
      (resultsSummary (l₁ ++ r :: l₂)).over_bets = (resultsSummary (l₁ ++ l₂)).over_bets
      ∧ (resultsSummary (l₁ ++ r :: l₂)).under_bets = (resultsSummary (l₁ ++ l₂)).under_bets)
    ∧ (∀ (l₁ l₂ : List PredictionRecord) (v : BetResult), r.result = some v →
      (resultsSummary (l₁ ++ r :: l₂)).total.total_bets
        = (resultsSummary (l₁ ++ l₂)).total.total_bets + 1
      ∧ ((byConfidence (l₁ ++ r :: l₂)).map (fun t => t.2.total_bets)).sum
        = ((byConfidence (l₁ ++ l₂)).map (fun t => t.2.total_bets)).sum + 1)
    ∧ (resultsSummary scenarioRecords).over_bets.total_bets = 4
    ∧ (resultsSummary scenarioRecords).total.total_bets = 6 := by
  refine ⟨?_, ?_, by decide, by decide⟩
  · intro l₁ l₂
    constructor
    · show computeStats ((l₁ ++ r :: l₂).filter (fun x => strContains x.recommendation "OVER"))
        = computeStats ((l₁ ++ l₂).filter (fun x => strContains x.recommendation "OVER"))
      rw [filter_middle_false hov]
    · show computeStats ((l₁ ++ r :: l₂).filter (fun x => strContains x.recommendation "UNDER"))
        = computeStats ((l₁ ++ l₂).filter (fun x => strContains x.recommendation "UNDER"))
      rw [filter_middle_false hun]
  · intro l₁ l₂ v hv
    constructor
    · show (computeStats (l₁ ++ r :: l₂)).total_bets
        = (computeStats (l₁ ++ l₂)).total_bets + 1
      exact total_bets_insert_graded hv l₁ l₂
    · rw [byConfidence_total_bets_sum, byConfidence_total_bets_sum,
        total_bets_insert_graded hv]

/-- C6 witness: appending a concrete direction-less graded record leaves
the over partition unchanged. -/
theorem no_direction_excluded_but_counted_witness :
    (resultsSummary [sampleWin, sampleNoDirection]).over_bets
      = (resultsSummary [sampleWin]).over_bets :=
  ((no_direction_excluded_but_counted sampleNoDirection (by decide) (by decide)).1
    [sampleWin] []).1

/-- C5: an out-of-domain confidence or result filter literal makes the
record filter signal a validation error before filtering and never
return a successful (hence never an empty) list, while a fully valid
query always yields a successful response, a shape disjoint from every
error. -/
theorem invalid_filter_literal_rejected (q : FilterQuery)
    (records : List PredictionRecord) :
    (∀ s, q.confidence = some s → parseConfidence s = none →
      filterRecords q records = Except.error (FilterError.invalidConfidence s)
      ∧ ∀ l, filterRecords q records ≠ Except.ok l)
    ∧ (∀ s, q.result = some s → parseResult s = none →
      (∃ e, filterRecords q records = Except.error e)
      ∧ ∀ l, filterRecords q records ≠ Except.ok l)
    ∧ (∀ c v, parseConfFilter q.confidence = Except.ok c →
        parseResultFilter q.result = Except.ok v →
        checkDateRange q.dateFrom q.dateTo = Except.ok () →
        filterRecords q records
          = Except.ok (sortByGameTime q.descending (records.filter (matchesQuery q c v))))
    ∧ (∀ (l : List PredictionRecord) (e : FilterError),
        (Except.ok l : Except FilterError (List PredictionRecord)) ≠ Except.error e) := by
  refine ⟨?_, ?_, ?_, ?_⟩
  · intro s hs hp
    have hc : parseConfFilter q.confidence
        = Except.error (FilterError.invalidConfidence s) := by
      rw [hs]
      simp [parseConfFilter, hp]
    exact ⟨by simp [filterRecords, hc], fun l => by simp [filterRecords, hc]⟩
  · intro s hs hp
    have hrf : parseResultFilter q.result
        = Except.error (FilterError.invalidResult s) := by
      rw [hs]
      simp [parseResultFilter, hp]
    cases hc : parseConfFilter q.confidence with
    | error e =>
      exact ⟨⟨e, by simp [filterRecords, hc]⟩, fun l => by simp [filterRecords, hc]⟩
    | ok c =>
      exact ⟨⟨FilterError.invalidResult s, by simp [filterRecords, hc, hrf]⟩,
        fun l => by simp [filterRecords, hc, hrf]⟩
  · intro c v hc hv hd
    simp [filterRecords, hc, hv, hd]
  · intro l e h
    exact Except.noConfusion h

/-- C5 witness: the literal EXTREME is rejected as an invalid confidence
before filtering. -/
theorem invalid_filter_literal_rejected_witness :
    filterRecords badConfidenceQuery [sampleWin]
      = Except.error (FilterError.invalidConfidence "EXTREME") :=
  ((invalid_filter_literal_rejected badConfidenceQuery [sampleWin]).1
    "EXTREME" rfl rfl).1

/-- C7: for every operation requiring authentication, a missing or
unrecognized credential is rejected with an authentication error, and
the outcome is independent of the stored records — no record access and
no data is returned. -/
theorem auth_gate_rejects_before_processing (acceptedKeys : List String)
    (apiKey : Option String) (ep : Endpoint) (q : FilterQuery)
    (records : List PredictionRecord) (hep : requiresAuth ep = true)
    (hkey : ∀ k, apiKey = some k → k ∉ acceptedKeys) :
    handleRequest acceptedKeys apiKey ep q records = Except.error ApiError.unauthorized
    ∧ ∀ records' : List PredictionRecord,
        handleRequest acceptedKeys apiKey ep q records'
          = handleRequest acceptedKeys apiKey ep q records := by
  have hmain : ∀ rs : List PredictionRecord,
      handleRequest acceptedKeys apiKey ep q rs = Except.error ApiError.unauthorized := by
    intro rs
    cases hk : apiKey with
    | none => simp [handleRequest, hep]
    | some k =>
      have hnot : k ∉ acceptedKeys := hkey k hk
      simp [handleRequest, hep, hnot]
  exact ⟨hmain records, fun rs => by rw [hmain rs, hmain records]⟩

/-- C7 witness: a wrong key against the configured key set is rejected on
the results operation with no processing of the one stored record. -/
theorem auth_gate_rejects_before_processing_witness :
    handleRequest ["dev-key-123"] (some "wrong-key") Endpoint.results emptyQuery [sampleWin]
      = Except.error ApiError.unauthorized :=
  (auth_gate_rejects_before_processing ["dev-key-123"] (some "wrong-key")
    Endpoint.results emptyQuery [sampleWin] (by decide)
    (by
      intro k hk
      injection hk with h
      subst h
      decide)).1

/-- checkGameHitLine on an OVER recommendation is the strict comparison. -/
lemma checkGameHitLine_over {rec : String} (h : strContains rec "OVER" = true)
    (shots : ℤ) (line : ℚ) :
    checkGameHitLine shots line rec = decide ((shots : ℚ) > line) := by
  unfold checkGameHitLine
  rw [h]
  simp

/-- barColor on two present values reduces to the two-branch coloring. -/
lemma barColor_some (shots : ℤ) (l p : ℚ) :
    barColor shots (some l) (some p)
      = if p < l then (if (shots : ℚ) < l then winColor else lossColor)
        else (if (shots : ℚ) ≥ l then winColor else lossColor) := rfl

/-- Sorting by game time does not change membership. -/
lemma mem_sortByGameTime {r : PredictionRecord} {d : Bool}
    {l : List PredictionRecord} : r ∈ sortByGameTime d l ↔ r ∈ l := by
  unfold sortByGameTime
  split
  · exact List.mem_insertionSort _
  · exact List.mem_insertionSort _

/-- C8: a date-range filter whose lower bound lies strictly after its
upper bound is rejected as invalid (never a successful list, so neither
all records nor none are silently returned), while a well-ordered range
is evaluated inclusively on both ends against game time. -/
theorem date_range_order_and_inclusivity (q : FilterQuery)
    (records : List PredictionRecord) (a b : ℤ)
    (hf : q.dateFrom = some a) (ht : q.dateTo = some b) :
    (b < a → (∃ e, filterRecords q records = Except.error e)
      ∧ ∀ l, filterRecords q records ≠ Except.ok l)
    ∧ (a ≤ b → ∀ l, filterRecords q records = Except.ok l →
      ∃ c v, parseConfFilter q.confidence = Except.ok c
        ∧ parseResultFilter q.result = Except.ok v
        ∧ ∀ r : PredictionRecord,
            r ∈ l ↔ r ∈ records ∧ a ≤ r.game_time ∧ r.game_time ≤ b
              ∧ matchesConfidence c r = true ∧ matchesResult v r = true
              ∧ matchesPlayer q.player r = true) := by
  have hdr : checkDateRange q.dateFrom q.dateTo
      = if b < a then Except.error FilterError.invalidDateRange else Except.ok () := by
    rw [hf, ht]
    rfl
  constructor
  · intro hba
    cases hc : parseConfFilter q.confidence with
    | error e =>
      exact ⟨⟨e, by simp [filterRecords, hc]⟩, fun l => by simp [filterRecords, hc]⟩
    | ok c =>
      cases hv : parseResultFilter q.result with
      | error e =>
        exact ⟨⟨e, by simp [filterRecords, hc, hv]⟩,
          fun l => by simp [filterRecords, hc, hv]⟩
      | ok v =>
        have hd : checkDateRange q.dateFrom q.dateTo
            = Except.error FilterError.invalidDateRange := by
          rw [hdr, if_pos hba]
        exact ⟨⟨FilterError.invalidDateRange, by simp [filterRecords, hc, hv, hd]⟩,
          fun l => by simp [filterRecords, hc, hv, hd]⟩
  · intro hab l hok
    cases hc : parseConfFilter q.confidence with
    | error e => simp [filterRecords, hc] at hok
    | ok c =>
      cases hv : parseResultFilter q.result with
      | error e => simp [filterRecords, hc, hv] at hok
      | ok v =>
        have hd : checkDateRange q.dateFrom q.dateTo = Except.ok () := by
          rw [hdr, if_neg (not_lt.mpr hab)]
        refine ⟨c, v, rfl, rfl, ?_⟩
        have hl : l = sortByGameTime q.descending (records.filter (matchesQuery q c v)) := by
          simp only [filterRecords, hc, hv, hd] at hok
          exact (Except.ok.inj hok).symm
        intro r
        rw [hl, mem_sortByGameTime, List.mem_filter]
        unfold matchesQuery matchesDate
        rw [hf, ht]
        simp only [Bool.and_eq_true, decide_eq_true_eq]
        tauto

/-- C8 witness: with bounds 0 and 10, the record with game time 1 passes
the inclusive date evaluation on the successful response. -/
theorem date_range_order_and_inclusivity_witness :
    sampleWin ∈ [sampleWin]
      ↔ sampleWin ∈ [sampleWin] ∧ (0 : ℤ) ≤ sampleWin.game_time
          ∧ sampleWin.game_time ≤ 10
          ∧ matchesConfidence none sampleWin = true
          ∧ matchesResult none sampleWin = true
          ∧ matchesPlayer dateQuery.player sampleWin = true := by
  obtain ⟨c, v, hc, hv, hmem⟩ :=
    (date_range_order_and_inclusivity dateQuery [sampleWin] 0 10 rfl rfl).2
      (by decide) [sampleWin] (by rfl)
  simp only [dateQuery, parseConfFilter] at hc
  simp only [dateQuery, parseResultFilter] at hv
  cases hc
  cases hv
  exact hmem sampleWin

/-- C9: for an OVER recommendation (recommendation containing OVER and a
prediction at or above the line), the strict classifier of
PredictionsTableRow and the non-strict bar coloring of PlayerStatsChart
disagree exactly at shot counts equal to the line — so they disagree at
every game whose shots equal an integer-valued line and agree on all
games whenever the line is not an integer. -/
theorem hit_classifiers_agree_iff_line_not_integer (rec : String)
    (line prediction : ℚ) (hover : strContains rec "OVER" = true)
    (hpred : line ≤ prediction) :
    (∀ shots : ℤ, (shots : ℚ) = line →
      checkGameHitLine shots line rec = false
        ∧ barColor shots (some line) (some prediction) = winColor)
    ∧ ((∀ n : ℤ, line ≠ (n : ℚ)) →
      ∀ shots : ℤ,
        (checkGameHitLine shots line rec = true
          ↔ barColor shots (some line) (some prediction) = winColor)) := by
  have hnot : ¬ prediction < line := not_lt.mpr hpred
  constructor
  · intro shots hs
    constructor
    · rw [checkGameHitLine_over hover]
      simp [hs]
    · rw [barColor_some, if_neg hnot, if_pos (ge_of_eq hs)]
  · intro hint shots
    have hne : (shots : ℚ) ≠ line := fun hE => hint shots hE.symm
    rw [checkGameHitLine_over hover, barColor_some, if_neg hnot]
    by_cases hge : (shots : ℚ) ≥ line
    · rw [if_pos hge]
      simp only [decide_eq_true_eq]
      exact iff_true_intro (lt_of_le_of_ne hge (Ne.symm hne))
    · rw [if_neg hge]
      simp only [decide_eq_true_eq]
      constructor
      · intro hgt
        exact absurd (le_of_lt hgt) hge
      · intro hcol
        exact absurd hcol (by decide)

/-- C9 witness: on the integer line 3 with an OVER recommendation and
prediction 3.5, a 3-shot game is a miss for the strict classifier but a
green (winning) bar for the chart coloring. -/
theorem hit_classifiers_agree_iff_line_not_integer_witness :
    checkGameHitLine 3 3 "BET OVER 3.0" = false
      ∧ barColor 3 (some 3) (some (7/2)) = winColor :=
  (hit_classifiers_agree_iff_line_not_integer "BET OVER 3.0" 3 (7/2)
    (by decide) (by norm_num)).1 3 (by norm_num)

/-- C10: checkGameHitLine classifies every input — a recommendation
containing OVER is graded as shots > line and every other
recommendation, including one containing neither OVER nor UNDER, is
graded as the UNDER bet shots < line; no input is unclassifiable. -/
theorem checkGameHitLine_total_classification (shots : ℤ) (line : ℚ)
    (rec : String) :
    (strContains rec "OVER" = false → strContains rec "UNDER" = false →
      (checkGameHitLine shots line rec = true ↔ (shots : ℚ) < line))
    ∧ (checkGameHitLine shots line rec = true ↔
        ((strContains rec "OVER" = true ∧ (shots : ℚ) > line)
          ∨ (strContains rec "OVER" = false ∧ (shots : ℚ) < line))) := by
  unfold checkGameHitLine
  cases h : strContains rec "OVER" <;> simp [h]

/-- C10 witness: the malformed recommendation NO BET is graded as an
UNDER bet, so 2 shots against a 3.5 line count as a hit. -/
theorem checkGameHitLine_total_classification_witness :
    checkGameHitLine 2 (7/2) "NO BET" = true ↔ ((2 : ℤ) : ℚ) < 7/2 :=
  (checkGameHitLine_total_classification 2 (7/2) "NO BET").1 (by decide) (by decide)
